import Mathlib

/-!
Verification of the setup-vault repository examples.

The repository consists of small Mongoose/Express demo scripts.  We give a
shallow embedding of the data the scripts manipulate: each MongoDB
collection becomes a list of (id, record) pairs, fresh ids come from a
counter, and each script operation becomes a pure state-passing function
translated from the corresponding JavaScript.  Mongoose library calls
(insertMany, findOne, populate, findById, findByIdAndUpdate,
findByIdAndDelete, save-time validation) are modelled by their documented
behaviour at the call sites the scripts use.
-/

namespace RelationDemo

/-- An Order document (src/mongo-relationships/Models/costumer.js,
OrderSchema): an item name and a price. -/
structure OrderRec where
  item : String
  price : Int
deriving Repr, DecidableEq

/-- A Customer document (CustomerSchema): a name and an array of
references to Orders.  A slot holds the id of an Order, or none when a
null was cast into the reference array. -/
structure CustomerRec where
  name : String
  orders : List (Option Nat)
deriving Repr, DecidableEq

/-- The relationDemo database: the Order and Customer collections, plus a
counter handing out fresh document ids. -/
structure RelState where
  nextId : Nat
  orders : List (Nat × OrderRec)
  customers : List (Nat × CustomerRec)
deriving Repr, DecidableEq

/-- A freshly connected, empty database. -/
def emptyRel : RelState := ⟨0, [], []⟩

/-- Look an Order up by its id: the store lookup underlying populate
(first record whose id matches). -/
def lookupOrder : List (Nat × OrderRec) → Nat → Option OrderRec
  | [], _ => none
  | p :: rest, oid => if p.1 = oid then some p.2 else lookupOrder rest oid

/-- Resolve a Customer's reference array: each identifier is replaced by
the Order it references.  A slot that does not resolve (a null entry or a
dangling id) is omitted from the output, per the resolver contract of the
spec (section 4.1) and mongoose's array populate; the original array order
of the surviving slots is preserved. -/
def populateOrders (orders : List (Nat × OrderRec)) (refs : List (Option Nat)) :
    List OrderRec :=
  refs.filterMap (fun r => r.bind (lookupOrder orders))

/-- Order.insertMany: append the documents to the collection in the given
order, assigning each a fresh id. -/
def insertManyOrders (s : RelState) (docs : List OrderRec) : RelState :=
  match docs with
  | [] => s
  | d :: ds => insertManyOrders ⟨s.nextId + 1, s.orders ++ [(s.nextId, d)], s.customers⟩ ds

/-- ItemData (costumer.js lines 31-47): inserts the three Orders
Samosa 15, Coke 40, Dosa 30. -/
def ItemData (s : RelState) : RelState :=
  insertManyOrders s [⟨"Samosa", 15⟩, ⟨"Coke", 40⟩, ⟨"Dosa", 30⟩]

/-- Order.findOne on an item filter: the first matching document. -/
def findOneOrderByItem (s : RelState) (it : String) : Option (Nat × OrderRec) :=
  s.orders.find? (fun p => p.2.item == it)

/-- CustomerData (costumer.js lines 51-62): finds the Samosa and Dosa
Orders and saves one Customer whose orders array holds the two results.
Mongoose casts a found document to its id and keeps a null as null. -/
def CustomerData (s : RelState) : RelState :=
  let item1 := findOneOrderByItem s "Samosa"
  let item2 := findOneOrderByItem s "Dosa"
  ⟨s.nextId + 1, s.orders,
   s.customers ++
     [(s.nextId, ⟨"Anuj Gupta", [item1.map (fun p => p.1), item2.map (fun p => p.1)]⟩)]⟩

/-- findData (costumer.js lines 66-69): Customer.findOne().populate
resolves the first Customer's orders; none when no Customer exists. -/
def findData (s : RelState) : Option (List OrderRec) :=
  (s.customers.head?).map (fun c => populateOrders s.orders c.2.orders)

/-- C1: after ItemData inserts the three Orders and CustomerData creates
one Customer referencing Samosa and Dosa, findData resolves that
Customer's orders to exactly those two Order records, with the inserted
item and price values, in the order the references were stored. -/
theorem c1_populate_returns_referenced_orders :
    findData (CustomerData (ItemData emptyRel)) =
      some [⟨"Samosa", 15⟩, ⟨"Dosa", 30⟩] := by decide

/-- C2: for every Customer record in the store, resolving its orders
reference field yields an array no longer than the stored reference
array: resolution never produces more entries than there are references. -/
theorem c2_resolution_length_le (s : RelState) (c : Nat × CustomerRec)
    (_hc : c ∈ s.customers) :
    (populateOrders s.orders c.2.orders).length ≤ c.2.orders.length :=
  List.length_filterMap_le _ _

/-- Witness for C2 at the concrete demo store built by ItemData and
CustomerData. -/
theorem c2_witness :
    (populateOrders (CustomerData (ItemData emptyRel)).orders
        [some 0, some 2]).length ≤ 2 :=
  c2_resolution_length_le (CustomerData (ItemData emptyRel))
    (3, ⟨"Anuj Gupta", [some 0, some 2]⟩) (by decide)

/-- Modelled from the spec: store-level deletion of an Order record
(spec section 3: referential integrity is not enforced, so "a deleted
Order leaves a dangling reference that resolves to nothing").  The source
has no Order delete path; this models the document store removing every
record carrying the given id. -/
def deleteOrder (s : RelState) (oid : Nat) : RelState :=
  ⟨s.nextId, s.orders.filter (fun p => p.1 != oid), s.customers⟩

theorem lookupOrder_filter_self (orders : List (Nat × OrderRec)) (oid : Nat) :
    lookupOrder (orders.filter (fun p => p.1 != oid)) oid = none := by
  induction orders with
  | nil => rfl
  | cons p rest ih =>
    by_cases hp : p.1 = oid
    · simpa [List.filter_cons, hp] using ih
    · simpa [List.filter_cons, hp, lookupOrder] using ih

theorem lookupOrder_filter_other (orders : List (Nat × OrderRec)) (oid r : Nat)
    (h : r ≠ oid) :
    lookupOrder (orders.filter (fun p => p.1 != oid)) r = lookupOrder orders r := by
  induction orders with
  | nil => rfl
  | cons p rest ih =>
    by_cases hp : p.1 = oid
    · have hpr : oid ≠ r := fun hh => h hh.symm
      simpa [List.filter_cons, hp, lookupOrder, hpr] using ih
    · by_cases hr : p.1 = r
      · simp [List.filter_cons, hp, lookupOrder, hr, h]
      · simpa [List.filter_cons, hp, lookupOrder, hr, h] using ih

/-- If `f` agrees with `g` except for resolving to nothing at some
inputs, a filterMap through `f` is no longer than through `g`. -/
theorem filterMap_length_mono {α β : Type} (f g : α → Option β)
    (h : ∀ a, f a = none ∨ f a = g a) (l : List α) :
    (l.filterMap f).length ≤ (l.filterMap g).length := by
  induction l with
  | nil => exact Nat.le.refl
  | cons a l ih =>
    rcases h a with hf | hf
    · cases hg : g a with
      | none => simpa [List.filterMap_cons, hf, hg] using ih
      | some b =>
        simp only [List.filterMap_cons, hf, hg, List.length_cons]
        exact Nat.le_succ_of_le ih
    · rw [List.filterMap_cons, List.filterMap_cons, hf]
      cases hg : g a with
      | none => simpa [hg] using ih
      | some b =>
        simp only [hg, List.length_cons]
        exact Nat.succ_le_succ ih

/-- Strict version of `filterMap_length_mono`: if some list element that
resolved under `g` no longer resolves under `f`, the output is strictly
shorter. -/
theorem filterMap_length_strict {α β : Type} (f g : α → Option β)
    (h : ∀ a, f a = none ∨ f a = g a) (l : List α) (a0 : α)
    (ha0 : a0 ∈ l) (hf0 : f a0 = none) (hg0 : ∃ b, g a0 = some b) :
    (l.filterMap f).length < (l.filterMap g).length := by
  induction l with
  | nil => cases ha0
  | cons a l ih =>
    rcases List.mem_cons.mp ha0 with rfl | hmem
    · obtain ⟨b, hb⟩ := hg0
      simp only [List.filterMap_cons, hf0, hb, List.length_cons]
      exact Nat.lt_succ_of_le (filterMap_length_mono f g h l)
    · rcases h a with hf | hf
      · cases hg : g a with
        | none => simpa [List.filterMap_cons, hf, hg] using ih hmem
        | some b =>
          simp only [List.filterMap_cons, hf, hg, List.length_cons]
          exact Nat.lt_succ_of_lt (ih hmem)
      · rw [List.filterMap_cons, List.filterMap_cons, hf]
        cases hg : g a with
        | none => simpa [hg] using ih hmem
        | some b =>
          simp only [hg, List.length_cons]
          exact Nat.succ_lt_succ (ih hmem)

/-- C3: deleting a referenced Order and then resolving its former
Customer yields a strictly shorter array (the dangling slot is omitted).
Resolution is a total function in this model — populate never raises; it
simply drops the slot, as the spec's resolver contract states. -/
theorem c3_delete_then_resolve_shorter (s : RelState) (c : Nat × CustomerRec)
    (oid : Nat) (o : OrderRec) (_hc : c ∈ s.customers)
    (href : some oid ∈ c.2.orders) (hres : lookupOrder s.orders oid = some o) :
    (populateOrders (deleteOrder s oid).orders c.2.orders).length <
      (populateOrders s.orders c.2.orders).length := by
  have hpt : ∀ r? : Option Nat,
      r?.bind (lookupOrder ((deleteOrder s oid).orders)) = none ∨
      r?.bind (lookupOrder ((deleteOrder s oid).orders)) =
        r?.bind (lookupOrder s.orders) := by
    intro r?
    cases r? with
    | none => exact Or.inr rfl
    | some r =>
      by_cases hr : r = oid
      · left
        show lookupOrder (deleteOrder s oid).orders r = none
        rw [hr]
        simpa [deleteOrder] using lookupOrder_filter_self s.orders oid
      · right
        show lookupOrder (deleteOrder s oid).orders r = lookupOrder s.orders r
        simpa [deleteOrder] using lookupOrder_filter_other s.orders oid r hr
  exact filterMap_length_strict _ _ hpt c.2.orders (some oid) href
    (by simpa [deleteOrder] using lookupOrder_filter_self s.orders oid)
    ⟨o, by simpa using hres⟩

/-- Witness for C3: the demo store, deleting the Samosa Order (id 0)
referenced by the one Customer. -/
theorem c3_witness :
    (populateOrders
        (deleteOrder (CustomerData (ItemData emptyRel)) 0).orders
        [some 0, some 2]).length <
      (populateOrders (CustomerData (ItemData emptyRel)).orders
        [some 0, some 2]).length :=
  c3_delete_then_resolve_shorter (CustomerData (ItemData emptyRel))
    (3, ⟨"Anuj Gupta", [some 0, some 2]⟩) 0 ⟨"Samosa", 15⟩
    (by decide) (by decide) (by decide)

theorem insertManyOrders_frame (docs : List OrderRec) : ∀ s : RelState,
    ∃ tl, (insertManyOrders s docs).orders = s.orders ++ tl ∧
      (insertManyOrders s docs).customers = s.customers := by
  induction docs with
  | nil => exact fun s => ⟨[], by simp [insertManyOrders], rfl⟩
  | cons d ds ih =>
    intro s
    obtain ⟨tl, h1, h2⟩ := ih ⟨s.nextId + 1, s.orders ++ [(s.nextId, d)], s.customers⟩
    refine ⟨(s.nextId, d) :: tl, ?_, ?_⟩
    · simpa [insertManyOrders, List.append_assoc] using h1
    · simpa [insertManyOrders] using h2

/-- C9: the relationship demo exposes no update or delete of existing
records.  ItemData and CustomerData only append: the previously existing
Order records are an unchanged prefix of the Order collection, the
Customer collection is an unchanged prefix too, and findData is read-only
by its very type (RelState → Option (List OrderRec)), so an Order is
never mutated once created. -/
theorem c9_orders_immutable (s : RelState) :
    ((ItemData s).orders.take s.orders.length = s.orders) ∧
    ((ItemData s).customers = s.customers) ∧
    ((CustomerData s).orders = s.orders) ∧
    ((CustomerData s).customers.take s.customers.length = s.customers) := by
  obtain ⟨tl, h1, h2⟩ := insertManyOrders_frame [⟨"Samosa", 15⟩, ⟨"Coke", 40⟩, ⟨"Dosa", 30⟩] s
  refine ⟨?_, h2, rfl, ?_⟩
  · rw [ItemData, h1]
    exact List.take_left _ _
  · exact List.take_left _ _

end RelationDemo

namespace WhatsApp

/-- A Chat document (src/mongo-with-express/models/chat.js, chatSchema):
from, to, message, date.  Each field is optional at the document level —
whether a document is acceptable is decided by validation at save time.
The JavaScript field names `from` and `to` are Lean keywords, hence `from_` and `to_`. -/
structure ChatRec where
  from_ : Option String
  to_ : Option String
  message : Option String
  date : Nat
deriving Repr, DecidableEq

/-- The whatsapp database: the Chat collection plus the fresh-id counter. -/
structure ChatState where
  nextId : Nat
  chats : List (Nat × ChatRec)
deriving Repr, DecidableEq

def emptyChats : ChatState := ⟨0, []⟩

/-- chatSchema validation, run by mongoose on save and insertMany:
`from` and `to` are required; `message` has maxLength 50, checked only
when the field is present; `date` is unconstrained. -/
def validateChat (d : ChatRec) : Bool :=
  d.from_.isSome && d.to_.isSome &&
    (match d.message with
     | none => true
     | some m => decide (m.length ≤ 50))

/-- Chat#save: validate the document, then append it with a fresh id;
a document failing validation is rejected and nothing is stored. -/
def saveChat (s : ChatState) (d : ChatRec) : Except String ChatState :=
  if validateChat d then
    .ok ⟨s.nextId + 1, s.chats ++ [(s.nextId, d)]⟩
  else
    .error "ValidationError"

/-- Chat.insertMany (src/unnamed/part_007): every document is validated;
on success all are appended in order, on any failure none is stored. -/
def insertManyChats (s : ChatState) (docs : List ChatRec) : Except String ChatState :=
  if docs.all validateChat then
    .ok (docs.foldl (fun t d => ⟨t.nextId + 1, t.chats ++ [(t.nextId, d)]⟩) s)
  else
    .error "ValidationError"

/-- First record of the collection carrying the id, none when absent. -/
def findByIdList : List (Nat × ChatRec) → Nat → Option ChatRec
  | [], _ => none
  | p :: rest, id => if p.1 = id then some p.2 else findByIdList rest id

/-- Chat.findById: the first record carrying the id, none when absent. -/
def findById (s : ChatState) (id : Nat) : Option ChatRec :=
  findByIdList s.chats id

/-- Chat.findByIdAndUpdate(id, { message }, { new: true }) as called by
the PATCH /chats/:id handler (index.js lines 64-69): sets the message
field of the record with that id.  Mongoose runs no validators on update
operations by default and the handler does not opt in, so no validation
happens here.  A missing id makes the call a no-op. -/
def findByIdAndUpdateMessage (s : ChatState) (id : Nat) (m : String) : ChatState :=
  ⟨s.nextId,
   s.chats.map (fun p => if p.1 = id then (p.1, { p.2 with message := some m }) else p)⟩

/-- Chat.findByIdAndDelete as called by the DELETE /chats/:id handler
(index.js lines 71-75): removes the record with that id. -/
def findByIdAndDelete (s : ChatState) (id : Nat) : ChatState :=
  ⟨s.nextId, s.chats.filter (fun p => p.1 != id)⟩

/-- The responses the chat routes produce. -/
inductive Resp where
  | render (view : String) (data : Option ChatRec)
  | redirect (loc : String)
deriving Repr, DecidableEq

/-- GET /chats/:id (index.js lines 40-44): look the chat up and render
show.ejs with whatever came back — the null result included. -/
def getChatById (s : ChatState) (id : Nat) : Resp :=
  .render "show.ejs" (findById s id)

/-- POST /chats (index.js lines 46-56): build a Chat from the request
body and fire save without awaiting it; the response is a redirect to
/chats in every case, a rejected save changes nothing but answers the
same redirect. -/
def postChats (s : ChatState) (from_ to_ message : Option String) (now : Nat) :
    ChatState × Resp :=
  let d : ChatRec := ⟨from_, to_, message, now⟩
  match saveChat s d with
  | .ok s2 => (s2, .redirect "/chats")
  | .error _ => (s, .redirect "/chats")

/-- PATCH /chats/:id: update the message and redirect.  An absent
message field in the body is dropped by mongoose, leaving the record
untouched. -/
def patchChats (s : ChatState) (id : Nat) (message : Option String) :
    ChatState × Resp :=
  match message with
  | some m => (findByIdAndUpdateMessage s id m, .redirect "/chats")
  | none => (s, .redirect "/chats")

/-- DELETE /chats/:id: delete and redirect. -/
def deleteChats (s : ChatState) (id : Nat) : ChatState × Resp :=
  (findByIdAndDelete s id, .redirect "/chats")

theorem findByIdList_after_update (l : List (Nat × ChatRec)) (id : Nat)
    (c : ChatRec) (m : String) (h : findByIdList l id = some c) :
    findByIdList
        (l.map (fun p => if p.1 = id then (p.1, { p.2 with message := some m }) else p)) id =
      some { c with message := some m } := by
  induction l with
  | nil => simp [findByIdList] at h
  | cons p rest ih =>
    by_cases hp : p.1 = id
    · rw [findByIdList, if_pos hp] at h
      cases h
      simp [List.map_cons, hp, findByIdList]
    · rw [findByIdList, if_neg hp] at h
      simpa [List.map_cons, hp, findByIdList] using ih h

theorem findByIdList_after_delete (l : List (Nat × ChatRec)) (id : Nat) :
    findByIdList (l.filter (fun p => p.1 != id)) id = none := by
  induction l with
  | nil => rfl
  | cons p rest ih =>
    by_cases hp : p.1 = id
    · simpa [List.filter_cons, hp] using ih
    · simpa [List.filter_cons, hp, findByIdList] using ih

/-- C4: for a Chat record stored under an id, the PATCH update of its
message makes the next findById on that id return the record with the
updated message value, and the DELETE by that id makes a subsequent
findById on that id return null. -/
theorem c4_update_read_delete_null (s : ChatState) (id : Nat) (c : ChatRec)
    (m : String) (h : findById s id = some c) :
    findById (findByIdAndUpdateMessage s id m) id = some { c with message := some m } ∧
    findById (findByIdAndDelete s id) id = none := by
  exact ⟨findByIdList_after_update s.chats id c m h,
    findByIdList_after_delete s.chats id⟩

/-- Witness for C4 on a store holding one concrete chat. -/
theorem c4_witness :
    findById
        (findByIdAndUpdateMessage
          ⟨1, [(0, ⟨some "User1", some "User2", some "hi", 5⟩)]⟩ 0 "yo") 0 =
      some ⟨some "User1", some "User2", some "yo", 5⟩ ∧
    findById
        (findByIdAndDelete
          ⟨1, [(0, ⟨some "User1", some "User2", some "hi", 5⟩)]⟩ 0) 0 = none :=
  c4_update_read_delete_null
    ⟨1, [(0, ⟨some "User1", some "User2", some "hi", 5⟩)]⟩ 0
    ⟨some "User1", some "User2", some "hi", 5⟩ "yo" (by decide)

theorem findByIdList_eq_none (l : List (Nat × ChatRec)) (id : Nat)
    (h : ∀ p ∈ l, p.1 ≠ id) : findByIdList l id = none := by
  induction l with
  | nil => rfl
  | cons p rest ih =>
    rw [findByIdList, if_neg (h p (List.mem_cons_self p rest))]
    exact ih (fun q hq => h q (List.mem_cons_of_mem p hq))

/-- A 51-character message. -/
def longMsg : String := String.mk (List.replicate 51 'a')

/-- A store holding one valid chat under id 0. -/
def c8state : ChatState := ⟨1, [(0, ⟨some "User1", some "User2", some "hi", 0⟩)]⟩

/-- Counterexample to C8 as stated: the PATCH update path runs no
validators, so updating a stored chat with a 51-character message is not
rejected — the oversized message is stored and read back, violating the
claimed stored-message-length invariant. -/
theorem c8_counterexample :
    50 < longMsg.length ∧
    findById (findByIdAndUpdateMessage c8state 0 longMsg) 0 =
      some ⟨some "User1", some "User2", some longMsg, 0⟩ :=
  ⟨by decide, rfl⟩

/-- C8 amended: creation enforces the bound — a document accepted by
save or by insertMany has a message of at most 50 characters — but the
message update path (findByIdAndUpdate without runValidators) does not
validate, so the invariant is preserved by creation only. -/
theorem c8_creation_enforces_maxlength (s s2 t t2 : ChatState) (d e : ChatRec)
    (docs : List ChatRec) (m n : String)
    (hsave : saveChat s d = .ok s2) (hm : d.message = some m)
    (hins : insertManyChats t docs = .ok t2) (he : e ∈ docs)
    (hn : e.message = some n) :
    m.length ≤ 50 ∧ n.length ≤ 50 := by
  have hv : validateChat d = true := by
    cases hval : validateChat d with
    | true => rfl
    | false => simp [saveChat, hval] at hsave
  have hall : docs.all validateChat = true := by
    cases hval : docs.all validateChat with
    | true => rfl
    | false => simp [insertManyChats, hval] at hins
  have hve : validateChat e = true := List.all_eq_true.mp hall e he
  constructor
  · simp [validateChat, hm] at hv
    exact hv.2
  · simp [validateChat, hn] at hve
    exact hve.2

/-- Witness for the amended C8: a concrete save and a concrete
insertMany, both accepted, with in-bound messages. -/
theorem c8_amended_witness :
    ("hi".length ≤ 50) ∧ ("yo".length ≤ 50) :=
  c8_creation_enforces_maxlength emptyChats
    ⟨1, [(0, ⟨some "User1", some "User2", some "hi", 0⟩)]⟩
    emptyChats ⟨1, [(0, ⟨some "User3", some "User4", some "yo", 1⟩)]⟩
    ⟨some "User1", some "User2", some "hi", 0⟩
    ⟨some "User3", some "User4", some "yo", 1⟩
    [⟨some "User3", some "User4", some "yo", 1⟩] "hi" "yo"
    rfl rfl rfl (List.mem_cons_self _ _) rfl

/-- C10: the POST /chats handler redirects to /chats whatever happens to
the save; when a required field (from or to) is missing the save rejects
and no record is stored, yet the client receives the same redirect as on
success. -/
theorem c10_post_redirects_regardless (s : ChatState)
    (from_ to_ message : Option String) (now : Nat) :
    ((postChats s from_ to_ message now).2 = .redirect "/chats") ∧
    ((postChats s none to_ message now).1 = s) ∧
    ((postChats s from_ none message now).1 = s) := by
  refine ⟨?_, ?_, ?_⟩
  · simp only [postChats]
    cases h : saveChat s ⟨from_, to_, message, now⟩ with
    | ok s2 => simp [h]
    | error e => simp [h]
  · simp [postChats, saveChat, validateChat]
  · simp [postChats, saveChat, validateChat]

end WhatsApp

namespace MongooseDemo

/-- A field value in a schemaless document (src/unnamed/part_002 uses
string and number fields). -/
inductive Value where
  | str (s : String)
  | num (n : Int)
deriving Repr, DecidableEq

/-- A document as handed to the store: a list of named fields, in the
order they were written, declared or not. -/
abbrev Doc := List (String × Value)

inductive FieldType where
  | str
  | num
deriving Repr, DecidableEq

/-- A declared schema path: a field name and its type.  userSchema
declares no required flags and no validators, so none are modelled. -/
structure SchemaField where
  fname : String
  ftype : FieldType
deriving Repr, DecidableEq

/-- userSchema (part_002 lines 15-19): name String, email String,
age Number. -/
def userSchema : List SchemaField :=
  [⟨"name", .str⟩, ⟨"email", .str⟩, ⟨"age", .num⟩]

def typeOk : FieldType → Value → Bool
  | .str, .str _ => true
  | .num, .num _ => true
  | _, _ => false

/-- Validation consults only the declared schema paths: an absent
declared field is fine (nothing is required), a present one must have
the declared type.  Fields the schema does not declare are never
examined, so they cannot make validation fail. -/
def fieldOk (d : Doc) (f : SchemaField) : Bool :=
  match d.lookup f.fname with
  | none => true
  | some v => typeOk f.ftype v

def validateDoc (schema : List SchemaField) (d : Doc) : Bool :=
  schema.all (fieldOk d)

/-- Strict mode: the stored document keeps only the declared paths;
undeclared fields are silently discarded rather than rejected. -/
def castDoc (schema : List SchemaField) (d : Doc) : Doc :=
  schema.filterMap (fun f => (d.lookup f.fname).map (fun v => (f.fname, v)))

/-- The test database: the users collection plus the fresh-id counter. -/
structure UserState where
  nextId : Nat
  users : List (Nat × Doc)
deriving Repr, DecidableEq

def insertUsersAux (schema : List SchemaField) : UserState → List Doc → UserState
  | s, [] => s
  | s, d :: ds =>
      insertUsersAux schema ⟨s.nextId + 1, s.users ++ [(s.nextId, castDoc schema d)]⟩ ds

/-- User.insertMany: validate every document against the schema; on
success store them all (stripped to declared paths), otherwise reject. -/
def insertManyUsers (schema : List SchemaField) (s : UserState) (docs : List Doc) :
    Except String UserState :=
  if docs.all (validateDoc schema) then
    .ok (insertUsersAux schema s docs)
  else
    .error "ValidationError"

/-- First user record carrying the id, none when absent. -/
def findUserByIdList : List (Nat × Doc) → Nat → Option Doc
  | [], _ => none
  | p :: rest, id => if p.1 = id then some p.2 else findUserByIdList rest id

/-- User.findById (part_002 lines 81-82). -/
def findUserById (s : UserState) (id : Nat) : Option Doc :=
  findUserByIdList s.users id

theorem findUserByIdList_eq_none (l : List (Nat × Doc)) (id : Nat)
    (h : ∀ p ∈ l, p.1 ≠ id) : findUserByIdList l id = none := by
  induction l with
  | nil => rfl
  | cons p rest ih =>
    rw [findUserByIdList, if_neg (h p (List.mem_cons_self p rest))]
    exact ih (fun q hq => h q (List.mem_cons_of_mem p hq))

/-- The three documents of the User.insertMany call (part_002 lines
47-64); each carries a password field the schema does not declare. -/
def user2doc : Doc :=
  [("name", .str "user2"), ("email", .str "user2@gmail.com"),
   ("age", .num 18), ("password", .str "bhootnath")]

def user3doc : Doc :=
  [("name", .str "user3"), ("email", .str "user3@gmail.com"),
   ("password", .str "bootcamp"), ("age", .num 19)]

def user4doc : Doc :=
  [("name", .str "user4"), ("passsword", .str "bothume"),
   ("age", .num 20), ("email", .str "user4@gmail.com")]

/-- C5: the schema does not declare a password field, the inserted
documents do carry one, and the insert nevertheless succeeds — schema
validation does not prevent the save, and the collection grows by the
three documents. -/
theorem c5_nonconforming_insert_succeeds (s : UserState) :
    (userSchema.all (fun f => f.fname != "password") = true) ∧
    (user2doc.lookup "password" = some (.str "bhootnath")) ∧
    (insertManyUsers userSchema s [user2doc, user3doc, user4doc] =
      .ok (insertUsersAux userSchema s [user2doc, user3doc, user4doc])) ∧
    ((insertUsersAux userSchema s [user2doc, user3doc, user4doc]).users.length =
      s.users.length + 3) := by
  refine ⟨by decide, by decide, ?_, ?_⟩
  · have hall : [user2doc, user3doc, user4doc].all (validateDoc userSchema) = true := by
      decide
    simp [insertManyUsers, hall]
  · simp [insertUsersAux]

end MongooseDemo

namespace MiddlewareDemo

/-- What a middleware does with a request: pass it on or answer. -/
inductive MwOutcome where
  | next
  | send (body : String)
deriving Repr, DecidableEq

/-- Whether a request path falls under the /api mount of
app.use("/api", ...): the mount path itself or any path below it. -/
def pathUnderApi (p : String) : Bool :=
  p == "/api" || "/api/".toList.isPrefixOf p.toList

/-- The demo middleware body (src/Middleware/index.js lines 13-20): pass
the request on when the token query parameter equals giveAccess,
otherwise answer Access Denied; a missing parameter compares unequal. -/
def apiTokenCheck (token : Option String) : MwOutcome :=
  if token == some "giveAccess" then .next else .send "Access Denied"

/-- The mounted middleware: the check runs only for paths under /api;
other requests pass through untouched. -/
def apiMount (p : String) (token : Option String) : MwOutcome :=
  if pathUnderApi p then apiTokenCheck token else .next

/-- C7: for every request under /api, the middleware passes the request
to the next handler iff the token equals giveAccess; for any other or
missing token the response is the text Access Denied and no later
handler runs. -/
theorem c7_api_token_gate (p : String) (token : Option String)
    (hp : pathUnderApi p = true) :
    (apiMount p token = .next ↔ token = some "giveAccess") ∧
    (token ≠ some "giveAccess" → apiMount p token = .send "Access Denied") := by
  constructor
  · constructor
    · intro h
      by_contra hne
      have hb : (token == some "giveAccess") = false := beq_eq_false_iff_ne.mpr hne
      simp [apiMount, hp, apiTokenCheck, hb] at h
    · intro h
      simp [apiMount, hp, apiTokenCheck, h]
  · intro hne
    have hb : (token == some "giveAccess") = false := beq_eq_false_iff_ne.mpr hne
    simp [apiMount, hp, apiTokenCheck, hb]

/-- Witness for C7: a wrong token under /api is denied, and the right
token passes. -/
theorem c7_witness :
    apiMount "/api/data" none = MwOutcome.send "Access Denied" ∧
    apiMount "/api/data" (some "giveAccess") = MwOutcome.next :=
  ⟨(c7_api_token_gate "/api/data" none (by decide)).2 (by decide),
   (c7_api_token_gate "/api/data" (some "giveAccess") (by decide)).1.mpr rfl⟩

end MiddlewareDemo

/-- C6: a lookup by an identifier present in no record resolves to null
rather than raising: Chat.findById yields none, the GET /chats/:id
handler goes on to render show.ejs with that none instead of surfacing
an error, and User.findById behaves the same way. -/
theorem c6_absent_lookup_null (s : WhatsApp.ChatState) (id : Nat)
    (us : MongooseDemo.UserState) (uid : Nat)
    (h1 : ∀ p ∈ s.chats, p.1 ≠ id) (h2 : ∀ q ∈ us.users, q.1 ≠ uid) :
    WhatsApp.findById s id = none ∧
    WhatsApp.getChatById s id = WhatsApp.Resp.render "show.ejs" none ∧
    MongooseDemo.findUserById us uid = none := by
  have hc : WhatsApp.findById s id = none := WhatsApp.findByIdList_eq_none s.chats id h1
  refine ⟨hc, ?_, MongooseDemo.findUserByIdList_eq_none us.users uid h2⟩
  rw [WhatsApp.getChatById, hc]

/-- Witness for C6 on empty stores. -/
theorem c6_witness :
    WhatsApp.findById WhatsApp.emptyChats 7 = none ∧
    WhatsApp.getChatById WhatsApp.emptyChats 7 = WhatsApp.Resp.render "show.ejs" none ∧
    MongooseDemo.findUserById ⟨0, []⟩ 7 = none :=
  c6_absent_lookup_null WhatsApp.emptyChats 7 ⟨0, []⟩ 7
    (by intro p hp; simp [WhatsApp.emptyChats] at hp)
    (by intro q hq; simp at hq)
